import Mathlib

/-!
Verification development for the Korad PSU serial driver (`korad_api.py`).

The driver is embedded shallowly:
* Python exceptions become the `PyError` type and operations return
  `Except PyError α × KoradSt` (the state is kept even on error, mirroring the
  side effects already performed when a Python exception propagates).
* The serial transport is modelled as a `Port`: an open flag, the configured
  read timeout, and a script of pending reply lines (`readline` pops the head;
  an exhausted script models a read that times out and returns the empty
  bytestring, exactly what pyserial's `readline` does).
* Every interaction with the transport is recorded in an event trace so that
  claims about byte streams and timing discipline can be stated.
* Numeric set-point values are modelled as rationals.
-/

instance {ε α : Type} [DecidableEq ε] [DecidableEq α] : DecidableEq (Except ε α) :=
  fun a b =>
    match a, b with
    | .error e, .error f =>
      if h : e = f then .isTrue (by rw [h]) else .isFalse (by simp [h])
    | .error _, .ok _ => .isFalse (by simp)
    | .ok _, .error _ => .isFalse (by simp)
    | .ok x, .ok y =>
      if h : x = y then .isTrue (by rw [h]) else .isFalse (by simp [h])

/-- The Python exception kinds the driver can raise.  `timeoutError` is part of
the spec's error taxonomy; the model shows the code never produces it. -/
inductive PyError where
  | valueError
  | typeError
  | attributeError
  | timeoutError
deriving DecidableEq, Repr

/-- Wire commands, one constructor per command template of the API constants
(`KORAD_ID_CMD`, `KORAD_STATUS_CMD`, `KORAD_SAVE_CMD`, ..., `KORAD_IMEAS_CMD`). -/
inductive Cmd where
  | idn
  | statusq
  | sav (loc : Nat)
  | rcl (loc : Nat)
  | ocp (enable : Bool)
  | out (enable : Bool)
  | vset (ch : Nat) (v : ℚ)
  | iset (ch : Nat) (v : ℚ)
  | vread (ch : Nat)
  | iread (ch : Nat)
  | vmeas (ch : Nat)
  | imeas (ch : Nat)
deriving DecidableEq, Repr

/-- Rendering of a numeric set-point value.  Python formats the number with
`str`; the exact decimal rendering is abstracted to a canonical injective
rendering of the rational (integers render as plain integers, as in Python). -/
def fmtQ (q : ℚ) : String :=
  if q.den = 1 then toString q.num else toString q.num ++ "/" ++ toString q.den

/-- The ASCII byte string each command template produces
(`'VSET{}:{}'.format(ch, value).encode('utf-8')` and friends; commands are not
newline-terminated). -/
def encode : Cmd → String
  | .idn => "*IDN?"
  | .statusq => "STATUS?"
  | .sav loc => "SAV" ++ toString loc
  | .rcl loc => "RCL" ++ toString loc
  | .ocp b => "OCP" ++ (if b then "1" else "0")
  | .out b => "OUT" ++ (if b then "1" else "0")
  | .vset ch v => "VSET" ++ toString ch ++ ":" ++ fmtQ v
  | .iset ch v => "ISET" ++ toString ch ++ ":" ++ fmtQ v
  | .vread ch => "VSET" ++ toString ch ++ "?"
  | .iread ch => "ISET" ++ toString ch ++ "?"
  | .vmeas ch => "VOUT" ++ toString ch ++ "?"
  | .imeas ch => "IOUT" ++ toString ch ++ "?"

/-! ## Model identification (`KORAD_MODEL_REGEX` and `Korad._identify`) -/

/-- The named capture groups of `KORAD_MODEL_REGEX`:
`.*k(?P<panel>a|d)(?P<max_voltage>\d)(?P<channels>\d)(?P<max_current>\d+)p.*`
compiled with `re.I`.  `max_current` keeps the full captured digit run. -/
structure ModelGroups where
  panel : Char
  max_voltage : Char
  channels : Char
  max_current : List Char
deriving DecidableEq, Repr

/-- Attempt the suffix of the pattern (`k(a|d)\d\d\d+p`, case-insensitive)
at the head of the character list.  The `\d+` group is greedy: it captures the
maximal digit run, and the next character must then be `p`/`P` (backtracking
inside the run cannot help, since a shorter run ends on a digit). -/
def parseKorad : List Char → Option ModelGroups
  | k :: pan :: mv :: ch :: rest =>
    if k.toLower = 'k' ∧ (pan.toLower = 'a' ∨ pan.toLower = 'd') ∧
        mv.isDigit ∧ ch.isDigit then
      let ds := rest.takeWhile Char.isDigit
      let rest2 := rest.dropWhile Char.isDigit
      match rest2 with
      | p :: _ => if ds ≠ [] ∧ p.toLower = 'p' then some ⟨pan, mv, ch, ds⟩ else none
      | [] => none
    else none
  | _ => none

/-- `KORAD_MODEL_REGEX.match(id)`: the leading `.*` is greedy, so the match
(if any) uses the greatest start offset at which the rest of the pattern
succeeds; the trailing `.*` always succeeds. -/
def koradMatch (s : String) : Option ModelGroups :=
  let cs := s.toList
  (List.range (cs.length + 1)).reverse.findSome? fun i => parseKorad (cs.drop i)

/-- Decimal digit value of a character, `c.toNat - '0'.toNat` (Python `int` on
a digit). -/
def digitVal (c : Char) : Nat := c.toNat - 48

/-- Python `int` on a string of decimal digits (as produced by a `\d+` capture:
leading zeros allowed, e.g. `int("05") = 5`). -/
def digitsToNat (cs : List Char) : Nat :=
  cs.foldl (fun a c => a * 10 + digitVal c) 0

/-- The pure part of `Korad._identify`: infer `(id, channels, max_voltage,
max_current)` from the identification string.  A non-matching string makes
`.match(id)` return `None`, so `.groupdict()` raises `AttributeError`. -/
def identifyFromString (id : String) : Except PyError (String × Nat × Nat × Nat) :=
  match koradMatch id with
  | none => .error .attributeError
  | some g =>
    .ok (id, if g.channels = '0' then 1 else 3,
         digitsToNat [g.max_voltage, '0'], digitsToNat g.max_current)

/-! ## Transport and session state -/

/-- The serial transport (external collaborator).  Modelled from the spec:
pyserial is not part of the repository, and the spec's transport contract
requires open, exact write, read-one-line-or-empty-after-timeout, and an
idempotent close.  `pending` scripts the device's reply lines; an exhausted
script models a read on a silent device, which returns the empty bytestring
once the timeout elapses.  `closeTransitions` counts the open-to-closed
transitions actually performed. -/
structure Port where
  isOpen : Bool
  timeout : ℚ
  pending : List String
  closeTransitions : Nat
deriving DecidableEq, Repr

/-- One observable transport interaction of the session. -/
inductive Ev where
  | write (c : Cmd)
  | sleep (t : ℚ)
  | read (line : String)
  | closeT
deriving DecidableEq, Repr

/-- The state of a `Korad` handle: the fields `__init__` assigns, plus the
interaction trace. -/
structure KoradSt where
  addr : String
  clamp : Bool
  timeout : ℚ
  port : Port
  id : String
  channels : Nat
  max_voltage : Nat
  max_current : Nat
  atexitClose : Bool
  trace : List Ev
deriving DecidableEq, Repr

/-- `Korad.send_cmd`: write the command bytes, then `sleep(self.timeout)`. -/
def send_cmd (c : Cmd) (s : KoradSt) : KoradSt :=
  { s with trace := s.trace ++ [.write c, .sleep s.timeout] }

/-- `self._port.readline()`: pop the next scripted reply line; an exhausted
script is a timed-out read, which returns the empty bytestring. -/
def readline (s : KoradSt) : String × KoradSt :=
  match s.port.pending with
  | [] => ("", { s with trace := s.trace ++ [.read ""] })
  | l :: rest =>
    (l, { s with port := { s.port with pending := rest },
                 trace := s.trace ++ [.read l] })

/-- Python `bytes.rstrip()` with no argument: strip trailing whitespace. -/
def rstrip (s : String) : String :=
  String.mk (s.toList.reverse.dropWhile Char.isWhitespace).reverse

/-- The digits-with-optional-point core of a Python `float` literal:
`digits`, `digits.digits`, `digits.` or `.digits`. -/
def pyFloatCore (cs : List Char) : Option ℚ :=
  let intPart := cs.takeWhile Char.isDigit
  let rest := cs.dropWhile Char.isDigit
  match rest with
  | [] => if intPart = [] then none else some (digitsToNat intPart : ℚ)
  | '.' :: fracRest =>
    let fracPart := fracRest.takeWhile Char.isDigit
    let rest2 := fracRest.dropWhile Char.isDigit
    if rest2 = [] ∧ (intPart ≠ [] ∨ fracPart ≠ []) then
      some ((digitsToNat intPart : ℚ) +
        Rat.divInt (digitsToNat fracPart) (10 ^ fracPart.length))
    else none
  | _ => none

/-- Python `float` on an (already stripped) reply line: an optional sign then
a decimal literal; anything else — in particular the empty string a timed-out
read produces — raises `ValueError`. -/
def pyFloat (s : String) : Except PyError ℚ :=
  match s.toList with
  | '-' :: rest =>
    match pyFloatCore rest with
    | some q => .ok (-q)
    | none => .error .valueError
  | '+' :: rest =>
    match pyFloatCore rest with
    | some q => .ok q
    | none => .error .valueError
  | cs =>
    match pyFloatCore cs with
    | some q => .ok q
    | none => .error .valueError

/-- Python `ord`: the code point of a one-character string; any other length —
in particular the empty string a timed-out read produces — raises
`TypeError`. -/
def pyOrd (s : String) : Except PyError Nat :=
  match s.toList with
  | [c] => .ok c.toNat
  | _ => .error .typeError

/-! ## The value-read operations -/

/-- Shared body of the four value reads: send the query, read one line, strip
it, parse it with `float`. -/
def readValue (c : Cmd) (s : KoradSt) : Except PyError ℚ × KoradSt :=
  let s1 := send_cmd c s
  let (l, s2) := readline s1
  (pyFloat (rstrip l), s2)

/-- `Korad.measured_voltage(ch)`. -/
def measured_voltage (s : KoradSt) (ch : Nat) : Except PyError ℚ × KoradSt :=
  readValue (Cmd.vmeas ch) s

/-- `Korad.measured_current(ch)`. -/
def measured_current (s : KoradSt) (ch : Nat) : Except PyError ℚ × KoradSt :=
  readValue (Cmd.imeas ch) s

/-- `Korad.configured_voltage(ch)`. -/
def configured_voltage (s : KoradSt) (ch : Nat) : Except PyError ℚ × KoradSt :=
  readValue (Cmd.vread ch) s

/-- `Korad.configured_current(ch)`. -/
def configured_current (s : KoradSt) (ch : Nat) : Except PyError ℚ × KoradSt :=
  readValue (Cmd.iread ch) s

/-- `measured_voltage` at its declared default `ch=1`, as `status` calls it. -/
def measured_voltageD (s : KoradSt) : Except PyError ℚ × KoradSt :=
  measured_voltage s 1

/-- `measured_current` at its declared default `ch=1`, as `status` calls it. -/
def measured_currentD (s : KoradSt) : Except PyError ℚ × KoradSt :=
  measured_current s 1

/-- `configured_voltage` at its declared default `ch=1`, as `status` calls it. -/
def configured_voltageD (s : KoradSt) : Except PyError ℚ × KoradSt :=
  configured_voltage s 1

/-- `configured_current` at its declared default `ch=1`, as `status` calls it. -/
def configured_currentD (s : KoradSt) : Except PyError ℚ × KoradSt :=
  configured_current s 1

/-! ## Status -/

/-- The status dictionary built by `Korad.status`. -/
structure StatusD where
  output : Bool
  mode : String
  ocp : Bool
  v_out : ℚ
  i_out : ℚ
  v_set : ℚ
  i_set : ℚ
deriving DecidableEq, Repr

/-- Decoding of the status byte: `output` from `bool(status&(1<<6))`, `mode`
from `status&1` (`"CV"` set, `"CC"` clear), `ocp` from `bool(status&(1<<5))`. -/
def statusDecode (status : Nat) : Bool × String × Bool :=
  (status &&& (1 <<< 6) != 0,
   if status &&& 1 != 0 then "CV" else "CC",
   status &&& (1 <<< 5) != 0)

/-- `Korad.status`: the status-byte exchange, then the four value reads at
their channel defaults, assembled into the status dictionary in the order the
dict literal evaluates. -/
def statusOp (s : KoradSt) : Except PyError StatusD × KoradSt :=
  let s1 := send_cmd Cmd.statusq s
  let (l, s2) := readline s1
  match pyOrd (rstrip l) with
  | .error e => (.error e, s2)
  | .ok st =>
    match measured_voltageD s2 with
    | (.error e, s3) => (.error e, s3)
    | (.ok vOut, s3) =>
      match measured_currentD s3 with
      | (.error e, s4) => (.error e, s4)
      | (.ok iOut, s4) =>
        match configured_voltageD s4 with
        | (.error e, s5) => (.error e, s5)
        | (.ok vS, s5) =>
          match configured_currentD s5 with
          | (.error e, s6) => (.error e, s6)
          | (.ok iS, s6) =>
            (.ok { output := (statusDecode st).1, mode := (statusDecode st).2.1,
                   ocp := (statusDecode st).2.2,
                   v_out := vOut, i_out := iOut, v_set := vS, i_set := iS }, s6)

/-! ## Open, identify, close -/

/-- `Korad._identify`: identify exchange followed by capability inference
(the pure part is `identifyFromString`). -/
def identifyOp (s : KoradSt) : Except PyError (String × Nat × Nat × Nat) × KoradSt :=
  let s1 := send_cmd Cmd.idn s
  let (l, s2) := readline s1
  (identifyFromString (rstrip l), s2)

/-- `KORAD_MAX_TIMEOUT = 100e-3` seconds, the default constructor timeout. -/
def KORAD_MAX_TIMEOUT : ℚ := mkRat 1 10

/-- The state `Korad.__init__` has built just after `serial_for_url`: the
port is open with the caller's timeout (the same value the settle sleep will
use), the capability fields are not yet assigned, no exit hook yet. -/
def initSt (addr : String) (timeout : ℚ) (clamp : Bool) (replies : List String) :
    KoradSt :=
  { addr := addr, clamp := clamp, timeout := timeout,
    port := { isOpen := true, timeout := timeout, pending := replies,
              closeTransitions := 0 },
    id := "", channels := 0, max_voltage := 0, max_current := 0,
    atexitClose := false, trace := [] }

/-- `Korad.__init__(addr, timeout, clamp)` run against a scripted transport:
open the port, identify, store the inferred capabilities, register the
`atexit` close hook.  When identification fails the exception propagates with
the port still open and no hook registered (`atexit.register` runs only after
`_identify` returns). -/
def mkKorad (addr : String) (timeout : ℚ) (clamp : Bool) (replies : List String) :
    Except PyError Unit × KoradSt :=
  let s0 := initSt addr timeout clamp replies
  match identifyOp s0 with
  | (.error e, s1) => (.error e, s1)
  | (.ok (id, ch, mv, mc), s1) =>
    (.ok (), { s1 with id := id, channels := ch, max_voltage := mv,
                       max_current := mc, atexitClose := true })

/-- The transport's own close.  Modelled from the spec: the transport contract
(§6) requires close to be idempotent — a close on an open port performs the
single open-to-closed transition, a close on a closed port is a no-op and
does not fault. -/
def closePort (p : Port) : Port :=
  if p.isOpen then
    { p with isOpen := false, closeTransitions := p.closeTransitions + 1 }
  else p

/-- `Korad.close`: `self._port.close()`. -/
def close (s : KoradSt) : KoradSt :=
  { s with port := closePort s.port, trace := s.trace ++ [.closeT] }

/-! ## Set operations -/

/-- Count of `%s` placeholders in a format string (as a character scan). -/
def countPercentS : List Char → Nat
  | '%' :: 's' :: rest => countPercentS rest + 1
  | _ :: rest => countPercentS rest
  | [] => 0

/-- Substitute every `%s` placeholder by the argument. -/
def substPercentS : List Char → List Char → List Char
  | '%' :: 's' :: rest, arg => arg ++ substPercentS rest arg
  | c :: rest, arg => c :: substPercentS rest arg
  | [], _ => []

/-- Count of `%s` placeholders in a format string. -/
def placeholderCount (fmt : String) : Nat := countPercentS fmt.toList

/-- Python `fmt % arg` for a single non-tuple argument: succeeds only when
the format string holds exactly one placeholder; with more, the interpreter
raises `TypeError: not enough arguments for format string`. -/
def pyFormatOne (fmt : String) (arg : String) : Except PyError String :=
  if placeholderCount fmt = 1 then
    .ok (String.mk (substPercentS fmt.toList arg.toList))
  else .error .typeError

/-- `Korad.set_voltage`: a negative request is clamped to 0; a request above
`max_voltage` is clamped when `self.clamp` is set and otherwise raises — the
`raise ValueError('Voltage Too large: %s ... %s' % voltage, self.max_voltage)`
line formats a two-placeholder string against the bare number, so the
`TypeError` from the formatting preempts the intended `ValueError`.  In-range
requests are sent as given. -/
def set_voltage (s : KoradSt) (ch : Nat) (voltage : ℚ) :
    Except PyError Unit × KoradSt :=
  if voltage < 0 then
    (.ok (), send_cmd (Cmd.vset ch 0) s)
  else if (s.max_voltage : ℚ) < voltage then
    if s.clamp then (.ok (), send_cmd (Cmd.vset ch (s.max_voltage : ℚ)) s)
    else
      match pyFormatOne "Voltage Too large: %s is greater than max voltage of %s"
          (fmtQ voltage) with
      | .ok _ => (.error .valueError, s)
      | .error e => (.error e, s)
  else (.ok (), send_cmd (Cmd.vset ch voltage) s)

/-- `Korad.set_current`: same shape as `set_voltage`, against `max_current`,
with the same formatting slip on the no-clamp raise. -/
def set_current (s : KoradSt) (ch : Nat) (current : ℚ) :
    Except PyError Unit × KoradSt :=
  if current < 0 then
    (.ok (), send_cmd (Cmd.iset ch 0) s)
  else if (s.max_current : ℚ) < current then
    if s.clamp then (.ok (), send_cmd (Cmd.iset ch (s.max_current : ℚ)) s)
    else
      match pyFormatOne "Current Too large: %s is greater than max current of %s"
          (fmtQ current) with
      | .ok _ => (.error .valueError, s)
      | .error e => (.error e, s)
  else (.ok (), send_cmd (Cmd.iset ch current) s)

/-- `Korad.set_output`: `OUT1`/`OUT0`, single send, no reply read. -/
def set_output (s : KoradSt) (enable : Bool) : KoradSt :=
  send_cmd (Cmd.out enable) s

/-- `Korad.set_ocp`: `OCP1`/`OCP0`, single send, no reply read. -/
def set_ocp (s : KoradSt) (enable : Bool) : KoradSt :=
  send_cmd (Cmd.ocp enable) s

/-- `Korad.save_settings(loc)`. -/
def save_settings (s : KoradSt) (loc : Nat) : KoradSt :=
  send_cmd (Cmd.sav loc) s

/-- `Korad.recall_settings(loc)`. -/
def recall_settings (s : KoradSt) (loc : Nat) : KoradSt :=
  send_cmd (Cmd.rcl loc) s

/-! ## Bulk configuration -/

/-- The recognised keys of the `configure` params dict; a missing key is
`none` and `dict.get(key, False)` supplies the default. -/
structure ConfigParams where
  output : Option Bool
  ocp : Option Bool
  voltage : Option (List (Nat × ℚ))
  current : Option (List (Nat × ℚ))
deriving DecidableEq, Repr

/-- The `for entry in params['voltage']: self.set_voltage(**entry)` loop; an
exception aborts the loop, keeping the side effects performed so far. -/
def setVoltageList (s : KoradSt) : List (Nat × ℚ) → Except PyError Unit × KoradSt
  | [] => (.ok (), s)
  | e :: rest =>
    match set_voltage s e.1 e.2 with
    | (.ok _, s1) => setVoltageList s1 rest
    | (.error err, s1) => (.error err, s1)

/-- The `for entry in params['current']: self.set_current(**entry)` loop. -/
def setCurrentList (s : KoradSt) : List (Nat × ℚ) → Except PyError Unit × KoradSt
  | [] => (.ok (), s)
  | e :: rest =>
    match set_current s e.1 e.2 with
    | (.ok _, s1) => setCurrentList s1 rest
    | (.error err, s1) => (.error err, s1)

/-- `Korad.configure`: output first, then OCP, then the voltage entries in
list order, then the current entries in list order.  (`params.get('voltage',
False)` makes a missing or empty list skip its loop, which acts exactly like
iterating nothing.) -/
def configure (s : KoradSt) (params : ConfigParams) : Except PyError Unit × KoradSt :=
  let s1 := set_output s (params.output.getD false)
  let s2 := set_ocp s1 (params.ocp.getD false)
  match setVoltageList s2 (params.voltage.getD []) with
  | (.error e, s3) => (.error e, s3)
  | (.ok _, s3) => setCurrentList s3 (params.current.getD [])

/-! ## Trace observations -/

/-- The commands written to the transport, in order, read off a trace. -/
def writesOf (t : List Ev) : List Cmd :=
  t.filterMap fun e =>
    match e with
    | .write c => some c
    | _ => none

/-- A ready handle for a KD3005P-class device (`channels=1, max_voltage=30,
max_current=5`), with a chosen clamp flag and reply script, used to
instantiate the theorems at concrete inputs. -/
def sampleSt (clamp : Bool) (replies : List String) : KoradSt :=
  { addr := "COM4", clamp := clamp, timeout := KORAD_MAX_TIMEOUT,
    port := { isOpen := true, timeout := KORAD_MAX_TIMEOUT, pending := replies,
              closeTransitions := 0 },
    id := "RND 320-KD3005P V2.0", channels := 1, max_voltage := 30,
    max_current := 5, atexitClose := true, trace := [] }

/-- The clamp policy `set_voltage`/`set_current` apply before encoding when
`clamp` is set: negative to 0, above the maximum to the maximum, in-range
values unchanged. -/
def clampVal (v : ℚ) (m : Nat) : ℚ :=
  if v < 0 then 0 else if (m : ℚ) < v then (m : ℚ) else v

/-! ## Basic trace lemmas -/

theorem writesOf_append (a b : List Ev) : writesOf (a ++ b) = writesOf a ++ writesOf b := by
  simp [writesOf]

theorem writesOf_send_cmd (c : Cmd) (s : KoradSt) :
    writesOf (send_cmd c s).trace = writesOf s.trace ++ [c] := by
  simp [send_cmd, writesOf]

theorem send_cmd_port (c : Cmd) (s : KoradSt) : (send_cmd c s).port = s.port := rfl

theorem readline_writes (s : KoradSt) :
    writesOf (readline s).2.trace = writesOf s.trace := by
  unfold readline
  cases s.port.pending <;> simp [writesOf]

theorem readValue_writes (c : Cmd) (s : KoradSt) (r : Except PyError ℚ) (s' : KoradSt)
    (h : readValue c s = (r, s')) :
    writesOf s'.trace = writesOf s.trace ++ [c] := by
  have hs : s' = (readline (send_cmd c s)).2 := by
    have := congrArg Prod.snd h
    simpa [readValue] using this.symm
  rw [hs, readline_writes, writesOf_send_cmd]

/-! ## Error-classification lemmas -/

theorem pyFloat_error_eq (s : String) (e : PyError) (h : pyFloat s = .error e) :
    e = PyError.valueError := by
  unfold pyFloat at h
  split at h <;> [skip; skip; skip] <;> split at h <;> simp_all

theorem pyOrd_error_eq (s : String) (e : PyError) (h : pyOrd s = .error e) :
    e = PyError.typeError := by
  unfold pyOrd at h
  split at h <;> simp_all

theorem readValue_error_eq (c : Cmd) (s : KoradSt) (e : PyError) (s' : KoradSt)
    (h : readValue c s = (.error e, s')) :
    e = PyError.valueError := by
  have h1 := congrArg Prod.fst h
  simp [readValue] at h1
  exact pyFloat_error_eq _ _ h1

/-! ## Set-operation lemmas -/

theorem voltage_msg_placeholders :
    placeholderCount "Voltage Too large: %s is greater than max voltage of %s" = 2 := by
  decide

theorem current_msg_placeholders :
    placeholderCount "Current Too large: %s is greater than max current of %s" = 2 := by
  decide

theorem set_voltage_clamped (s : KoradSt) (ch : Nat) (v : ℚ) (h : s.clamp = true) :
    set_voltage s ch v = (.ok (), send_cmd (Cmd.vset ch (clampVal v s.max_voltage)) s) := by
  unfold set_voltage clampVal
  split_ifs with h1 h2 <;> simp [h]

theorem set_current_clamped (s : KoradSt) (ch : Nat) (v : ℚ) (h : s.clamp = true) :
    set_current s ch v = (.ok (), send_cmd (Cmd.iset ch (clampVal v s.max_current)) s) := by
  unfold set_current clampVal
  split_ifs with h1 h2 <;> simp [h]

theorem set_voltage_noclamp (s : KoradSt) (ch : Nat) (v : ℚ) (hc : s.clamp = false)
    (hv : (s.max_voltage : ℚ) < v) :
    set_voltage s ch v = (.error .typeError, s) := by
  unfold set_voltage
  have hnn : ¬ v < 0 := by
    have h0 : (0 : ℚ) ≤ (s.max_voltage : ℚ) := by positivity
    linarith
  rw [if_neg hnn, if_pos hv]
  simp [hc, pyFormatOne, voltage_msg_placeholders]

theorem set_current_noclamp (s : KoradSt) (ch : Nat) (v : ℚ) (hc : s.clamp = false)
    (hv : (s.max_current : ℚ) < v) :
    set_current s ch v = (.error .typeError, s) := by
  unfold set_current
  have hnn : ¬ v < 0 := by
    have h0 : (0 : ℚ) ≤ (s.max_current : ℚ) := by positivity
    linarith
  rw [if_neg hnn, if_pos hv]
  simp [hc, pyFormatOne, current_msg_placeholders]

theorem setVoltageList_clamped (l : List (Nat × ℚ)) :
    ∀ s : KoradSt, s.clamp = true →
      (setVoltageList s l).1 = .ok () ∧
      writesOf (setVoltageList s l).2.trace =
        writesOf s.trace ++ l.map (fun e => Cmd.vset e.1 (clampVal e.2 s.max_voltage)) ∧
      (setVoltageList s l).2.clamp = s.clamp ∧
      (setVoltageList s l).2.max_voltage = s.max_voltage ∧
      (setVoltageList s l).2.max_current = s.max_current := by
  induction l with
  | nil => intro s h; simp [setVoltageList]
  | cons e rest ih =>
    intro s h
    have hsv := set_voltage_clamped s e.1 e.2 h
    simp only [setVoltageList, hsv]
    have ih' := ih (send_cmd (Cmd.vset e.1 (clampVal e.2 s.max_voltage)) s) h
    refine ⟨ih'.1, ?_, ih'.2.2.1, ih'.2.2.2.1, ih'.2.2.2.2⟩
    rw [ih'.2.1, writesOf_send_cmd]
    simp [send_cmd]

theorem setCurrentList_clamped (l : List (Nat × ℚ)) :
    ∀ s : KoradSt, s.clamp = true →
      (setCurrentList s l).1 = .ok () ∧
      writesOf (setCurrentList s l).2.trace =
        writesOf s.trace ++ l.map (fun e => Cmd.iset e.1 (clampVal e.2 s.max_current)) ∧
      (setCurrentList s l).2.clamp = s.clamp ∧
      (setCurrentList s l).2.max_voltage = s.max_voltage ∧
      (setCurrentList s l).2.max_current = s.max_current := by
  induction l with
  | nil => intro s h; simp [setCurrentList]
  | cons e rest ih =>
    intro s h
    have hsc := set_current_clamped s e.1 e.2 h
    simp only [setCurrentList, hsc]
    have ih' := ih (send_cmd (Cmd.iset e.1 (clampVal e.2 s.max_current)) s) h
    refine ⟨ih'.1, ?_, ih'.2.2.1, ih'.2.2.2.1, ih'.2.2.2.2⟩
    rw [ih'.2.1, writesOf_send_cmd]
    simp [send_cmd]

/-! ## Claim theorems -/

/-- C1: whenever the identification string matches the model pattern, the
inferred capabilities are 1 channel for channel digit `0` and 3 channels for
any other digit, the tens digit times 10 as maximum voltage, and the captured
digit run read as a decimal integer as maximum current; instantiated by the
sample string `"RND 320-KD3005P V2.0"`, which yields `(1, 30, 5)`. -/
theorem identify_capabilities (s : String) (g : ModelGroups)
    (h : koradMatch s = some g) :
    identifyFromString s =
      .ok (s, if g.channels = '0' then 1 else 3, 10 * digitVal g.max_voltage,
           digitsToNat g.max_current) := by
  unfold identifyFromString
  rw [h]
  have hd : digitsToNat [g.max_voltage, '0'] = 10 * digitVal g.max_voltage := by
    show (0 * 10 + digitVal g.max_voltage) * 10 + digitVal '0' =
      10 * digitVal g.max_voltage
    have h0 : digitVal '0' = 0 := by decide
    rw [h0]
    ring
  simp [hd]

/-- Witness for C1 at the spec's example string. -/
theorem identify_capabilities_witness :
    koradMatch "RND 320-KD3005P V2.0" = some ⟨'D', '3', '0', ['0', '5']⟩ ∧
    identifyFromString "RND 320-KD3005P V2.0" =
      .ok ("RND 320-KD3005P V2.0", 1, 30, 5) := by
  refine ⟨by decide, ?_⟩
  rw [identify_capabilities "RND 320-KD3005P V2.0" ⟨'D', '3', '0', ['0', '5']⟩
    (by decide)]
  decide

/-- C2: with clamping enabled, `set_voltage` and `set_current` always succeed
and write exactly one encoded set-point command: the literal for 0 when the
request is negative, the literal for the device maximum when the request
exceeds it, and the literal for the exact requested value when it lies within
range (`clampVal` is precisely that three-way case split). -/
theorem clamped_set_encodes_clamped_value (s : KoradSt) (ch : Nat) (v : ℚ)
    (hc : s.clamp = true) :
    (set_voltage s ch v).1 = .ok () ∧
    (writesOf (set_voltage s ch v).2.trace).map encode =
      (writesOf s.trace).map encode ++ [encode (Cmd.vset ch (clampVal v s.max_voltage))] ∧
    (set_current s ch v).1 = .ok () ∧
    (writesOf (set_current s ch v).2.trace).map encode =
      (writesOf s.trace).map encode ++ [encode (Cmd.iset ch (clampVal v s.max_current))] := by
  rw [set_voltage_clamped s ch v hc, set_current_clamped s ch v hc]
  refine ⟨rfl, ?_, rfl, ?_⟩ <;> rw [writesOf_send_cmd] <;> simp

/-- Witness for C2 on a KD3005P handle: a negative voltage request encodes the
literal for 0, an over-range current request encodes the literal for the
maximum (5), and an in-range voltage request encodes the exact value. -/
theorem clamped_set_encodes_clamped_value_witness :
    (set_voltage (sampleSt true []) 1 (-5)).1 = .ok () ∧
    (writesOf (set_voltage (sampleSt true []) 1 (-5)).2.trace).map encode = ["VSET1:0"] ∧
    (writesOf (set_current (sampleSt true []) 1 10).2.trace).map encode = ["ISET1:5"] ∧
    (writesOf (set_voltage (sampleSt true []) 1 (mkRat 33 10)).2.trace).map encode =
      ["VSET1:33/10"] := by
  have h1 := clamped_set_encodes_clamped_value (sampleSt true []) 1 (-5) rfl
  have h2 := clamped_set_encodes_clamped_value (sampleSt true []) 1 10 rfl
  have h3 := clamped_set_encodes_clamped_value (sampleSt true []) 1 (mkRat 33 10) rfl
  refine ⟨h1.1, ?_, ?_, ?_⟩
  · rw [h1.2.1]; decide
  · rw [h2.2.2.2]; decide
  · rw [h3.2.1]; decide

/-- C3 (code bug): with clamping disabled, an over-range `set_voltage` or
`set_current` request does raise before anything is written — the session
state, and with it the byte stream, is returned unchanged — but the exception
is the `TypeError` produced by the slipped message formatting
(`'...%s...%s' % value` against a bare number), not the intended
`ValueError`/OutOfRangeError. -/
theorem noclamp_overrange_raises_no_write (s : KoradSt) (ch : Nat) (v w : ℚ)
    (hc : s.clamp = false) (hv : (s.max_voltage : ℚ) < v)
    (hw : (s.max_current : ℚ) < w) :
    set_voltage s ch v = (.error PyError.typeError, s) ∧
    set_current s ch w = (.error PyError.typeError, s) :=
  ⟨set_voltage_noclamp s ch v hc hv, set_current_noclamp s ch w hc hw⟩

/-- Witness for C3: on a no-clamp KD3005P handle (max 30 V / 5 A), requesting
31 V or 6 A raises `TypeError` and leaves the state untouched. -/
theorem noclamp_overrange_raises_no_write_witness :
    (sampleSt false []).clamp = false ∧
    ((sampleSt false []).max_voltage : ℚ) < 31 ∧
    ((sampleSt false []).max_current : ℚ) < 6 ∧
    set_voltage (sampleSt false []) 1 31 = (.error PyError.typeError, sampleSt false []) ∧
    set_current (sampleSt false []) 1 6 = (.error PyError.typeError, sampleSt false []) := by
  have h := noclamp_overrange_raises_no_write (sampleSt false []) 1 31 6 rfl
    (by norm_num [sampleSt]) (by norm_num [sampleSt])
  exact ⟨rfl, by norm_num [sampleSt], by norm_num [sampleSt], h.1, h.2⟩

theorem pyOrd_ne_timeout (s : String) :
    pyOrd s ≠ Except.error PyError.timeoutError := by
  unfold pyOrd
  split <;> simp

theorem pyFloat_ne_timeout (s : String) :
    pyFloat s ≠ Except.error PyError.timeoutError := by
  unfold pyFloat
  split <;> split <;> simp

theorem readValue_not_timeout (c : Cmd) (s s' : KoradSt) :
    readValue c s ≠ (Except.error PyError.timeoutError, s') := by
  intro hcontra
  have h1 := congrArg Prod.fst hcontra
  simp [readValue] at h1
  exact pyFloat_ne_timeout _ h1

theorem statusOp_no_timeout (s : KoradSt) :
    (statusOp s).1 ≠ Except.error PyError.timeoutError := by
  intro h
  unfold statusOp at h
  dsimp only at h
  repeat' split at h
  all_goals
    simp_all [measured_voltageD, measured_currentD, configured_voltageD,
      configured_currentD, measured_voltage, measured_current,
      configured_voltage, configured_current, readValue_not_timeout,
      pyOrd_ne_timeout]

theorem readValue_silent (c : Cmd) (s : KoradSt) (h : s.port.pending = []) :
    (readValue c s).1 = Except.error PyError.valueError := by
  have h0 : pyFloat (rstrip "") = Except.error PyError.valueError := by decide
  simp [readValue, readline, send_cmd, h, h0]

theorem statusOp_silent (s : KoradSt) (h : s.port.pending = []) :
    (statusOp s).1 = Except.error PyError.typeError := by
  have h0 : pyOrd (rstrip "") = Except.error PyError.typeError := by decide
  simp [statusOp, readline, send_cmd, h, h0]

/-- C4 (counterexample): a transport that returns no data before its timeout
makes the measured-voltage read fail with `ValueError` — the same error class
as a malformed reply (`float('')`) — and not with `TimeoutError`, so the
claimed behaviour is false on this input. -/
theorem silent_read_parse_error_cex :
    (measured_voltage (sampleSt true []) 1).1 = Except.error PyError.valueError ∧
    (measured_voltage (sampleSt true []) 1).1 ≠ Except.error PyError.timeoutError := by
  decide

/-- C4 (amended): when the transport returns no data before its timeout, the
four value reads fail with `ValueError` (the `float('')` parse failure) and
the status read fails with `TypeError` (the `ord('')` failure); none of the
read operations ever raises `TimeoutError`, so a silent device is not
distinguished from a garbled reply. -/
theorem silent_transport_error_kinds (s : KoradSt) (ch : Nat) :
    (s.port.pending = [] →
      (measured_voltage s ch).1 = Except.error PyError.valueError ∧
      (measured_current s ch).1 = Except.error PyError.valueError ∧
      (configured_voltage s ch).1 = Except.error PyError.valueError ∧
      (configured_current s ch).1 = Except.error PyError.valueError ∧
      (statusOp s).1 = Except.error PyError.typeError) ∧
    (measured_voltage s ch).1 ≠ Except.error PyError.timeoutError ∧
    (measured_current s ch).1 ≠ Except.error PyError.timeoutError ∧
    (configured_voltage s ch).1 ≠ Except.error PyError.timeoutError ∧
    (configured_current s ch).1 ≠ Except.error PyError.timeoutError ∧
    (statusOp s).1 ≠ Except.error PyError.timeoutError := by
  refine ⟨fun h => ⟨readValue_silent _ s h, readValue_silent _ s h,
      readValue_silent _ s h, readValue_silent _ s h, statusOp_silent s h⟩,
    ?_, ?_, ?_, ?_, statusOp_no_timeout s⟩ <;>
    intro hcontra <;>
    exact pyFloat_ne_timeout _ (by simpa [measured_voltage, measured_current,
      configured_voltage, configured_current, readValue] using hcontra)

/-- Witness for C4's amended claim on a silent transport. -/
theorem silent_transport_error_kinds_witness :
    (sampleSt true []).port.pending = [] ∧
    (measured_current (sampleSt true []) 1).1 = Except.error PyError.valueError ∧
    (statusOp (sampleSt true [])).1 = Except.error PyError.typeError := by
  have h := (silent_transport_error_kinds (sampleSt true []) 1).1 rfl
  exact ⟨rfl, h.2.1, h.2.2.2.2⟩

/-- C5 (counterexample): opening a handle against a device whose
identification string does not match the model pattern fails — but with an
`AttributeError` (from `.groupdict()` on the `None` returned by `.match`),
and the transport is left open: no close happens before the error surfaces,
so the claimed close-before-surfacing is false on this input. -/
theorem open_failure_leaves_port_open_cex :
    (mkKorad "COM4" KORAD_MAX_TIMEOUT true ["bogus"]).1 =
      Except.error PyError.attributeError ∧
    (mkKorad "COM4" KORAD_MAX_TIMEOUT true ["bogus"]).2.port.isOpen = true ∧
    (mkKorad "COM4" KORAD_MAX_TIMEOUT true ["bogus"]).2.port.closeTransitions = 0 := by
  decide

/-- C5 (amended): when the identification reply does not match the model
pattern, open fails with `AttributeError`, no usable handle is produced (the
constructor propagates the exception and never registers cleanup), and the
transport remains open — it is not closed before the error is surfaced. -/
theorem mkKorad_unmatched (addr : String) (t : ℚ) (c : Bool) (replies : List String)
    (h : koradMatch (rstrip (replies.headD "")) = none) :
    (mkKorad addr t c replies).1 = Except.error PyError.attributeError ∧
    (mkKorad addr t c replies).2.port.isOpen = true ∧
    (mkKorad addr t c replies).2.port.closeTransitions = 0 ∧
    (mkKorad addr t c replies).2.atexitClose = false := by
  cases replies with
  | nil =>
    simp only [List.headD_nil] at h
    simp [mkKorad, identifyOp, initSt, readline, send_cmd, identifyFromString, h]
  | cons l rest =>
    simp only [List.headD_cons] at h
    simp [mkKorad, identifyOp, initSt, readline, send_cmd, identifyFromString, h]

/-- Witness for C5's amended claim: a non-matching identification reply. -/
theorem mkKorad_unmatched_witness :
    koradMatch (rstrip (["KORAD PSU"].headD "")) = none ∧
    (mkKorad "COM3" KORAD_MAX_TIMEOUT false ["KORAD PSU"]).1 =
      Except.error PyError.attributeError ∧
    (mkKorad "COM3" KORAD_MAX_TIMEOUT false ["KORAD PSU"]).2.port.isOpen = true := by
  have h := mkKorad_unmatched "COM3" KORAD_MAX_TIMEOUT false ["KORAD PSU"] (by decide)
  exact ⟨by decide, h.1, h.2.1⟩

/-- C6: the status byte decodes the output flag from bit 6, the regulation
mode from bit 0 (set = constant-voltage `"CV"`, clear = constant-current
`"CC"`), and the OCP flag from bit 5, ignoring every other bit (masking with
`0b1100001 = 97` leaves the decoding unchanged); byte `0b1100001` decodes to
output on, CV, OCP on, and byte `0` to output off, CC, OCP off. -/
theorem status_byte_decoding :
    (∀ b : Nat, statusDecode b =
        (b.testBit 6, if b.testBit 0 then "CV" else "CC", b.testBit 5) ∧
      statusDecode b = statusDecode (b &&& 97)) ∧
    statusDecode 97 = (true, "CV", true) ∧
    statusDecode 0 = (false, "CC", false) := by
  have key : ∀ b : Nat, statusDecode b =
      (b.testBit 6, if b.testBit 0 then "CV" else "CC", b.testBit 5) := by
    intro b
    have h6 : (b &&& (1 <<< 6) != 0) = b.testBit 6 := by
      rw [Nat.one_shiftLeft, Nat.and_two_pow]
      cases hb : b.testBit 6 <;> simp [hb]
    have h5 : (b &&& (1 <<< 5) != 0) = b.testBit 5 := by
      rw [Nat.one_shiftLeft, Nat.and_two_pow]
      cases hb : b.testBit 5 <;> simp [hb]
    have h0 : (b &&& 1 != 0) = b.testBit 0 := by
      have hpow : b &&& 1 = b &&& 2 ^ 0 := by norm_num
      rw [hpow, Nat.and_two_pow]
      cases hb : b.testBit 0 <;> simp [hb]
    simp only [statusDecode, h6, h5, h0]
  refine ⟨fun b => ⟨key b, ?_⟩, by decide, by decide⟩
  have e6 : (97 : Nat).testBit 6 = true := by decide
  have e5 : (97 : Nat).testBit 5 = true := by decide
  have e0 : (97 : Nat).testBit 0 = true := by decide
  rw [key b, key (b &&& 97)]
  simp [Nat.testBit_and, e6, e5, e0]

/-- C7: with clamping enabled, `configure` succeeds and issues exactly this
command sequence and nothing else: one OUT with the spec's output flag
(default false), one OCP with the spec's OCP flag (default false), then each
voltage entry in list order through `set_voltage` (hence clamped), then each
current entry in list order through `set_current`. -/
theorem configure_order (s : KoradSt) (p : ConfigParams) (h : s.clamp = true) :
    (configure s p).1 = Except.ok () ∧
    writesOf (configure s p).2.trace =
      writesOf s.trace ++
        [Cmd.out (p.output.getD false), Cmd.ocp (p.ocp.getD false)] ++
        (p.voltage.getD []).map (fun e => Cmd.vset e.1 (clampVal e.2 s.max_voltage)) ++
        (p.current.getD []).map (fun e => Cmd.iset e.1 (clampVal e.2 s.max_current)) := by
  have hv := setVoltageList_clamped (p.voltage.getD [])
    (send_cmd (Cmd.ocp (p.ocp.getD false)) (send_cmd (Cmd.out (p.output.getD false)) s)) h
  rcases hsv : setVoltageList
      (send_cmd (Cmd.ocp (p.ocp.getD false)) (send_cmd (Cmd.out (p.output.getD false)) s))
      (p.voltage.getD []) with ⟨r3, s3⟩
  rw [hsv] at hv
  obtain ⟨hr3, hw3, hc3, hmv3, hmc3⟩ := hv
  simp only at hr3 hw3 hc3 hmv3 hmc3
  subst hr3
  have hcl3 : s3.clamp = true := by rw [← h]; simpa [send_cmd] using hc3
  have hc' := setCurrentList_clamped (p.current.getD []) s3 hcl3
  rcases hsc : setCurrentList s3 (p.current.getD []) with ⟨r4, s4⟩
  rw [hsc] at hc'
  obtain ⟨hr4, hw4, _hx1, _hx2, _hx3⟩ := hc'
  simp only at hr4 hw4
  have hcfg : configure s p = (r4, s4) := by
    unfold configure set_output set_ocp
    dsimp only
    rw [hsv]
    dsimp only
    rw [hsc]
  rw [hcfg]
  refine ⟨by rw [hr4], ?_⟩
  show writesOf s4.trace = _
  rw [hw4, hw3, writesOf_send_cmd, writesOf_send_cmd]
  simp [send_cmd] at hmc3 ⊢
  rw [hmc3]
  simp [List.append_assoc]

/-- Witness for C7 at the repository's own test configuration (output on,
OCP off, 3.29 V and 0.01 A on channel 1). -/
theorem configure_order_witness :
    (configure (sampleSt true []) ⟨some true, some false,
        some [(1, mkRat 329 100)], some [(1, mkRat 1 100)]⟩).1 = Except.ok () ∧
    writesOf (configure (sampleSt true []) ⟨some true, some false,
        some [(1, mkRat 329 100)], some [(1, mkRat 1 100)]⟩).2.trace =
      [Cmd.out true, Cmd.ocp false, Cmd.vset 1 (mkRat 329 100),
       Cmd.iset 1 (mkRat 1 100)] := by
  have h := configure_order (sampleSt true []) ⟨some true, some false,
    some [(1, mkRat 329 100)], some [(1, mkRat 1 100)]⟩ rfl
  refine ⟨h.1, ?_⟩
  rw [h.2]
  decide

/-- C8: `close` is a total function (it cannot raise); a second `close`
leaves the port exactly as the first left it, because the transport's close
is idempotent and does not fault on a closed port; and over the handle's
lifetime the open-to-closed transition is performed exactly once. -/
theorem close_idempotent (s : KoradSt) :
    (close (close s)).port = (close s).port ∧
    (close s).port.isOpen = false ∧
    (s.port.isOpen = true → s.port.closeTransitions = 0 →
      (close (close s)).port.closeTransitions = 1) := by
  unfold close closePort
  cases hop : s.port.isOpen <;> simp [hop]

/-- Witness for C8 on a freshly opened handle. -/
theorem close_idempotent_witness :
    (sampleSt true []).port.isOpen = true ∧
    (sampleSt true []).port.closeTransitions = 0 ∧
    (close (close (sampleSt true []))).port = (close (sampleSt true [])).port ∧
    (close (close (sampleSt true []))).port.closeTransitions = 1 := by
  have h := close_idempotent (sampleSt true [])
  exact ⟨rfl, rfl, h.1, h.2.2 rfl rfl⟩

theorem mkKorad_timeout_fields (addr : String) (t : ℚ) (cl : Bool)
    (replies : List String) :
    (mkKorad addr t cl replies).2.timeout = t ∧
    (mkKorad addr t cl replies).2.port.timeout = t := by
  cases replies with
  | nil =>
    have hid : identifyFromString (rstrip "") = .error .attributeError := by decide
    simp [mkKorad, identifyOp, initSt, readline, send_cmd, hid]
  | cons l rest =>
    rcases hid : identifyFromString (rstrip l) with e | ⟨id, ch, mv, mc⟩ <;>
      simp [mkKorad, identifyOp, initSt, readline, send_cmd, hid]

/-- C9: sending a command writes it and then immediately sleeps for exactly
the handle's `timeout` — the trace grows by the write followed by the sleep
and nothing else, and the port is untouched during that interval; the port's
read timeout and the settle delay both come from the single constructor
`timeout` parameter, whose default `KORAD_MAX_TIMEOUT` is 0.1 s; no separate
settle-delay setting exists. -/
theorem send_cmd_settle_discipline (c : Cmd) (s : KoradSt) (addr : String)
    (t : ℚ) (cl : Bool) (replies : List String) :
    (send_cmd c s).trace = s.trace ++ [Ev.write c, Ev.sleep s.timeout] ∧
    (send_cmd c s).port = s.port ∧
    (mkKorad addr t cl replies).2.timeout = t ∧
    (mkKorad addr t cl replies).2.port.timeout = t ∧
    KORAD_MAX_TIMEOUT = 1 / 10 := by
  refine ⟨rfl, rfl, (mkKorad_timeout_fields addr t cl replies).1,
    (mkKorad_timeout_fields addr t cl replies).2, ?_⟩
  rw [KORAD_MAX_TIMEOUT, Rat.mkRat_eq_div]
  norm_num

/-- C10: every value read declares channel default 1 (the `D` forms `status`
calls are exactly the reads at channel 1), and a successful `status` writes
exactly the status query followed by the four channel-1 value queries — so
the snapshot's measured/configured fields always describe channel 1,
whatever the device's channel count. -/
theorem status_reads_channel_one (s : KoradSt) (d : StatusD) (s' : KoradSt)
    (h : statusOp s = (.ok d, s')) :
    writesOf s'.trace =
      writesOf s.trace ++
        [Cmd.statusq, Cmd.vmeas 1, Cmd.imeas 1, Cmd.vread 1, Cmd.iread 1] ∧
    measured_voltageD s = measured_voltage s 1 ∧
    measured_currentD s = measured_current s 1 ∧
    configured_voltageD s = configured_voltage s 1 ∧
    configured_currentD s = configured_current s 1 := by
  refine ⟨?_, rfl, rfl, rfl, rfl⟩
  unfold statusOp at h
  dsimp only at h
  rcases hpo : pyOrd (rstrip (readline (send_cmd Cmd.statusq s)).1) with e | st <;>
    rw [hpo] at h <;> dsimp only at h
  · exact absurd h (by simp)
  rcases hmv : measured_voltageD (readline (send_cmd Cmd.statusq s)).2 with ⟨rv, s3⟩
  rw [hmv] at h
  rcases rv with e | vOut <;> dsimp only at h
  · exact absurd h (by simp)
  rcases hmi : measured_currentD s3 with ⟨ri, s4⟩
  rw [hmi] at h
  rcases ri with e | iOut <;> dsimp only at h
  · exact absurd h (by simp)
  rcases hcv : configured_voltageD s4 with ⟨rcv, s5⟩
  rw [hcv] at h
  rcases rcv with e | vS <;> dsimp only at h
  · exact absurd h (by simp)
  rcases hcc : configured_currentD s5 with ⟨rcc, s6⟩
  rw [hcc] at h
  rcases rcc with e | iS <;> dsimp only at h
  · exact absurd h (by simp)
  simp only [Prod.mk.injEq] at h
  obtain ⟨h1, h2⟩ := h
  subst h2
  simp only [measured_voltageD, measured_voltage] at hmv
  simp only [measured_currentD, measured_current] at hmi
  simp only [configured_voltageD, configured_voltage] at hcv
  simp only [configured_currentD, configured_current] at hcc
  rw [readValue_writes _ _ _ _ hcc, readValue_writes _ _ _ _ hcv,
      readValue_writes _ _ _ _ hmi, readValue_writes _ _ _ _ hmv,
      readline_writes, writesOf_send_cmd]
  simp [List.append_assoc]

/-- Witness for C10: a scripted status exchange (`'a' = 0b1100001`, then the
four value replies) on a 1-channel handle. -/
theorem status_reads_channel_one_witness :
    statusOp (sampleSt true ["a", "1.0", "2.0", "3.0", "4.0"]) =
      (Except.ok ⟨true, "CV", true, 1, 2, 3, 4⟩,
        (statusOp (sampleSt true ["a", "1.0", "2.0", "3.0", "4.0"])).2) ∧
    writesOf (statusOp (sampleSt true ["a", "1.0", "2.0", "3.0", "4.0"])).2.trace =
      [Cmd.statusq, Cmd.vmeas 1, Cmd.imeas 1, Cmd.vread 1, Cmd.iread 1] := by
  have h1 : (statusOp (sampleSt true ["a", "1.0", "2.0", "3.0", "4.0"])).1 =
      Except.ok ⟨true, "CV", true, 1, 2, 3, 4⟩ := by with_unfolding_all decide
  have hpair :=
    (Prod.mk.eta (p := statusOp (sampleSt true ["a", "1.0", "2.0", "3.0", "4.0"]))).symm
  rw [h1] at hpair
  have h := status_reads_channel_one _ _ _ hpair
  refine ⟨hpair, ?_⟩
  rw [h.1]
  decide
